import Mathlib

/-!
Verification development for the fantasy_football repository.

The pydantic domain models (`Player`, `PassingMetrics`, `RushingMetrics`,
`ReceivingMetrics`) are embedded shallowly: each model gets an input
structure (raw values as they arrive from a joined row), a validated
record structure, and a constructor function that applies the model's
field constraints and validators in declaration order, returning
`Except String` with the failing field's error.  Floats are embedded as
rationals, Python ints as `Int`, strings as `String`.

The snap-count longitudinal aggregation (`create_snap_counts_by_year_df`)
is embedded over lists of (name, season, snaps) rows, following the
pandas steps of the source: groupby-sum, pivot, dropna on the hard-coded
2024 column, fillna 0, 66th-percentile threshold with linear
interpolation, and the any-column strict-greater qualification filter.
-/

namespace FF


/-- Scalar values appearing in raw tabular input as Python passes them to a
pydantic before-validator: ints, floats (embedded as rationals), strings,
and None. -/
inductive PyVal where
  | vint (n : Int)
  | vfloat (q : Rat)
  | vstr (s : String)
  | vnone
  deriving DecidableEq

/-!
Rational arithmetic helpers.  `Rat.add`, `Rat.mul`, `Rat.div`, `Rat.sub`
and `Rat.inv` are `@[irreducible]` in this library version, so concrete
values built with them do not evaluate inside `decide`.  The embedding
therefore computes with the following definitionally transparent
equivalents, built on `Rat.divInt`; bridge lemmas below identify them
with the standard field operations for use in symbolic statements.
-/

/-- Addition on rationals, computed through `Rat.divInt`. -/
def qadd (a b : Rat) : Rat :=
  Rat.divInt (a.num * (b.den : Int) + b.num * (a.den : Int))
    ((a.den : Int) * (b.den : Int))

/-- Negation on rationals (already transparent, named for uniformity). -/
def qneg (a : Rat) : Rat := -a

/-- Subtraction on rationals, computed through `Rat.divInt`. -/
def qsub (a b : Rat) : Rat := qadd a (-b)

/-- Multiplication on rationals, computed through `Rat.divInt`. -/
def qmul (a b : Rat) : Rat :=
  Rat.divInt (a.num * b.num) ((a.den : Int) * (b.den : Int))

/-- Division on rationals, computed through `Rat.divInt`. -/
def qdiv (a b : Rat) : Rat :=
  Rat.divInt (a.num * (b.den : Int)) ((a.den : Int) * b.num)

/-- Absolute value on rationals, computed by sign test. -/
def qabs (a : Rat) : Rat := if a < 0 then -a else a

/-- Numeric value of a list of decimal digit characters. -/
def natOfDigits (l : List Char) : Nat :=
  l.foldl (fun a c => 10 * a + (c.toNat - 48)) 0

/-- Parse an unsigned decimal mantissa: digits, optionally followed by a dot
and more digits, with at least one digit overall. -/
def parseMantissa (l : List Char) : Option Rat :=
  let ip := l.takeWhile Char.isDigit
  let rest := l.dropWhile Char.isDigit
  match rest with
  | [] => if ip.isEmpty then none else some (Rat.divInt (natOfDigits ip) 1)
  | c :: rest2 =>
    if c = '.' then
      let fp := rest2.takeWhile Char.isDigit
      let rest3 := rest2.dropWhile Char.isDigit
      if rest3.isEmpty then
        if ip.isEmpty && fp.isEmpty then none
        else some (Rat.divInt
          ((natOfDigits ip : Int) * (10 : Int) ^ fp.length + (natOfDigits fp : Int))
          ((10 : Int) ^ fp.length))
      else none
    else none

/-- Split a character list at the first exponent marker e/E. -/
def splitExponent (l : List Char) : List Char × Option (List Char) :=
  let m := l.takeWhile (fun c => !(c == 'e' || c == 'E'))
  let r := l.dropWhile (fun c => !(c == 'e' || c == 'E'))
  match r with
  | [] => (m, none)
  | _ :: tail => (m, some tail)

/-- Parse a signed decimal integer (the exponent of a float literal). -/
def parseExpInt (l : List Char) : Option Int :=
  match l with
  | [] => none
  | '+' :: t => if !t.isEmpty && t.all Char.isDigit then some ((natOfDigits t : Int)) else none
  | '-' :: t => if !t.isEmpty && t.all Char.isDigit then some (-((natOfDigits t : Int))) else none
  | t => if t.all Char.isDigit then some ((natOfDigits t : Int)) else none

/-- Apply a base-10 exponent to a rational. -/
def applyExp (m : Rat) (k : Int) : Rat :=
  if 0 ≤ k then qmul m (Rat.divInt ((10 : Int) ^ k.toNat) 1)
  else qdiv m (Rat.divInt ((10 : Int) ^ (-k).toNat) 1)

/-- Model of Python float(str): optional surrounding spaces, optional sign,
decimal mantissa with optional fraction, optional exponent.  (inf, nan and
underscore digit separators are not modelled; none occur in this data.) -/
def parsePyFloat (s : String) : Option Rat :=
  let l := ((s.toList.dropWhile (fun c => c == ' ')).reverse.dropWhile
    (fun c => c == ' ')).reverse
  let sgnBody : Rat × List Char :=
    match l with
    | '+' :: t => (1, t)
    | '-' :: t => (-1, t)
    | t => (1, t)
  let mexp := splitExponent sgnBody.2
  match parseMantissa mexp.1, mexp.2 with
  | some m, none => some (qmul sgnBody.1 m)
  | some m, some e =>
    match parseExpInt e with
    | some k => some (qmul sgnBody.1 (applyExp m k))
    | none => none
  | none, _ => none

/-- Python int() applied to a (finite) float value: truncation toward zero. -/
def truncRat (q : Rat) : Int :=
  if q < 0 then -((-q).floor) else q.floor

/-- Shallow embedding of the models' to_int field validator:
isinstance(v, int) passes ints through unchanged; otherwise int(float(v)),
with ValueError/TypeError becoming a coercion failure (None). -/
def toIntOpt : PyVal → Option Int
  | .vint n => some n
  | .vfloat q => some (truncRat q)
  | .vstr s => (parsePyFloat s).map truncRat
  | .vnone => none

/-- A before-validated integer field also subject to a ge=0 constraint:
coercion must succeed and the coerced value must be non-negative. -/
def coerceNonneg (v : PyVal) : Bool :=
  match toIntOpt v with
  | some r => decide (0 ≤ r)
  | none => false

/-- The coerced integer value of a field (only meaningful when coercion
succeeded). -/
def coerceVal (v : PyVal) : Int := (toIntOpt v).getD 0

/-- The fixed 32-team abbreviation list shared by the models'
validate_team_abbr validators. -/
def validTeams : List String :=
  ["ARI", "ATL", "BAL", "BUF", "CAR", "CHI", "CIN", "CLE", "DAL", "DEN",
   "DET", "GB", "HOU", "IND", "JAX", "KC", "LA", "LAC", "LV", "MIA",
   "MIN", "NE", "NO", "NYG", "NYJ", "PHI", "PIT", "SF", "SEA", "TB",
   "TEN", "WAS"]

/-- The position whitelist of the validate_position validators. -/
def validPositions : List String := ["QB", "RB", "WR", "TE"]

/-- The season-type whitelist of the validate_season_type validators. -/
def validSeasonTypes : List String := ["REG", "POST"]

/-- Core of the regex \d{2}-\d{7} matched against a whole character list. -/
def gsisCore (l : List Char) : Bool :=
  l.length == 10 && (l.take 2).all Char.isDigit &&
    (l.getD 2 ' ' == '-') && (l.drop 3).all Char.isDigit

/-- Python re.match with the anchored pattern ^\d{2}-\d{7}$; a `$` anchor
also matches just before one trailing newline. -/
def gsisMatch (s : String) : Bool :=
  gsisCore s.toList ||
    (s.toList.getLast? == some '\n' && gsisCore s.toList.dropLast)

/-- Raw construction input for ReceivingMetrics.  Fields covered by the
to_int before-validator arrive as PyVal; the remaining fields carry the
values pydantic would have after its own type handling. -/
structure ReceivingInput where
  gsis_id : String
  season : Int
  season_type : String
  week : Int
  position : String
  team_abbr : String
  avg_cushion : Rat
  avg_separation : Rat
  avg_intended_air_yards : Rat
  percent_share_of_intended_air_yards : Rat
  receptions : PyVal
  targets : PyVal
  catch_percentage : Rat
  yards : Int
  rec_touchdowns : PyVal
  avg_yac : Rat
  avg_expected_yac : Rat
  avg_yac_above_expectation : Rat
  deriving DecidableEq

/-- A validated ReceivingMetrics record. -/
structure ReceivingMetrics where
  gsis_id : String
  season : Int
  season_type : String
  week : Int
  position : String
  team_abbr : String
  avg_cushion : Rat
  avg_separation : Rat
  avg_intended_air_yards : Rat
  percent_share_of_intended_air_yards : Rat
  receptions : Int
  targets : Int
  catch_percentage : Rat
  yards : Int
  rec_touchdowns : Int
  avg_yac : Rat
  avg_expected_yac : Rat
  avg_yac_above_expectation : Rat
  deriving DecidableEq

/-- The validate_catch_percentage before-validator: when both receptions and
targets passed their own validation (coercion plus ge=0) and targets > 0,
require catch_percentage to be within 0.01 of receptions/targets*100;
otherwise the cross-check is skipped. -/
def catchCrossOK (i : ReceivingInput) : Bool :=
  match toIntOpt i.receptions, toIntOpt i.targets with
  | some r, some t =>
    if 0 ≤ r ∧ 0 ≤ t ∧ 0 < t then
      decide (qabs (qsub i.catch_percentage (qmul (Rat.divInt r t) 100)) ≤
        Rat.divInt 1 100)
    else true
  | _, _ => true

/-- The ordered per-field checks of ReceivingMetrics construction, in
field declaration order: (error name, passed).  A record is Accepted iff
every check passes; the reported error is the first failing field. -/
def receivingChecks (i : ReceivingInput) : List (String × Bool) :=
  [("gsis_id", decide (i.gsis_id.length = 10) && gsisMatch i.gsis_id),
   ("season", decide (1999 ≤ i.season ∧ i.season ≤ 2025)),
   ("season_type", decide (3 ≤ i.season_type.length ∧
      i.season_type.length ≤ 4 ∧ i.season_type ∈ validSeasonTypes)),
   ("week", decide (0 ≤ i.week ∧ i.week ≤ 18)),
   ("position", decide (1 ≤ i.position.length ∧ i.position.length ≤ 3 ∧
      i.position ∈ validPositions)),
   ("team_abbr", decide (2 ≤ i.team_abbr.length ∧ i.team_abbr.length ≤ 3 ∧
      i.team_abbr ∈ validTeams)),
   ("avg_cushion", decide (0 ≤ i.avg_cushion)),
   ("avg_separation", decide (0 ≤ i.avg_separation)),
   ("percent_share_of_intended_air_yards",
      decide (0 ≤ i.percent_share_of_intended_air_yards ∧
        i.percent_share_of_intended_air_yards ≤ 100)),
   ("receptions", coerceNonneg i.receptions),
   ("targets", coerceNonneg i.targets),
   ("catch_percentage mismatch", catchCrossOK i),
   ("catch_percentage range", decide (0 ≤ i.catch_percentage ∧
      i.catch_percentage ≤ 100)),
   ("rec_touchdowns", coerceNonneg i.rec_touchdowns)]

/-- The Accepted record built from a ReceivingMetrics input. -/
def receivingRecord (i : ReceivingInput) : ReceivingMetrics :=
  { gsis_id := i.gsis_id, season := i.season, season_type := i.season_type,
    week := i.week, position := i.position, team_abbr := i.team_abbr,
    avg_cushion := i.avg_cushion, avg_separation := i.avg_separation,
    avg_intended_air_yards := i.avg_intended_air_yards,
    percent_share_of_intended_air_yards :=
      i.percent_share_of_intended_air_yards,
    receptions := coerceVal i.receptions, targets := coerceVal i.targets,
    catch_percentage := i.catch_percentage, yards := i.yards,
    rec_touchdowns := coerceVal i.rec_touchdowns, avg_yac := i.avg_yac,
    avg_expected_yac := i.avg_expected_yac,
    avg_yac_above_expectation := i.avg_yac_above_expectation }

/-- First failing check in a list of (error name, passed) pairs. -/
def firstFail : List (String × Bool) → Option String
  | [] => none
  | (n, b) :: rest => if b then firstFail rest else some n

/-- Construction of a ReceivingMetrics record. -/
def mkReceiving (i : ReceivingInput) : Except String ReceivingMetrics :=
  match firstFail (receivingChecks i) with
  | some e => .error e
  | none => .ok (receivingRecord i)

/-- Whether a construction attempt ended Accepted. -/
def accepted {α : Type} (e : Except String α) : Bool :=
  match e with
  | .ok _ => true
  | .error _ => false

/-- Raw construction input for RushingMetrics.  Fields covered by the
to_int before-validator arrive as PyVal; the remaining fields carry the
values pydantic would have after its own type handling. -/
structure RushingInput where
  gsis_id : String
  season : Int
  season_type : String
  week : Int
  position : String
  team_abbr : String
  efficiency : Rat
  percent_attempts_gte_eight_defenders : Rat
  avg_time_to_los : Rat
  rush_attempts : PyVal
  rush_yards : PyVal
  avg_rush_yards : Rat
  rush_touchdowns : PyVal
  expected_rush_yards : Rat
  rush_yards_over_expected : Rat
  rush_yards_over_expected_per_att : Rat
  rush_pct_over_expected : Rat
  deriving DecidableEq

/-- A validated RushingMetrics record. -/
structure RushingMetrics where
  gsis_id : String
  season : Int
  season_type : String
  week : Int
  position : String
  team_abbr : String
  efficiency : Rat
  percent_attempts_gte_eight_defenders : Rat
  avg_time_to_los : Rat
  rush_attempts : Int
  rush_yards : Int
  avg_rush_yards : Rat
  rush_touchdowns : Int
  expected_rush_yards : Rat
  rush_yards_over_expected : Rat
  rush_yards_over_expected_per_att : Rat
  rush_pct_over_expected : Rat
  deriving DecidableEq

/-- A before-validated integer field with no range constraint beyond
coercion (rush_yards): coercion alone must succeed. -/
def coerceOK (v : PyVal) : Bool := (toIntOpt v).isSome

/-- The validate_avg_rush_yards before-validator: when both rush_yards and
rush_attempts passed their own validation and rush_attempts > 0, require
avg_rush_yards to be within 0.01 of rush_yards/rush_attempts; otherwise
the cross-check is skipped. -/
def avgRushCrossOK (i : RushingInput) : Bool :=
  match toIntOpt i.rush_yards, toIntOpt i.rush_attempts with
  | some y, some a =>
    if 0 ≤ a ∧ 0 < a then
      decide (qabs (qsub i.avg_rush_yards (Rat.divInt y a)) ≤ Rat.divInt 1 100)
    else true
  | _, _ => true

/-- The ordered per-field checks of RushingMetrics construction, in field
declaration order: (error name, passed). -/
def rushingChecks (i : RushingInput) : List (String × Bool) :=
  [("gsis_id", decide (i.gsis_id.length = 10) && gsisMatch i.gsis_id),
   ("season", decide (1999 ≤ i.season ∧ i.season ≤ 2025)),
   ("season_type", decide (3 ≤ i.season_type.length ∧
      i.season_type.length ≤ 4 ∧ i.season_type ∈ validSeasonTypes)),
   ("week", decide (0 ≤ i.week ∧ i.week ≤ 18)),
   ("position", decide (1 ≤ i.position.length ∧ i.position.length ≤ 3 ∧
      i.position ∈ validPositions)),
   ("team_abbr", decide (2 ≤ i.team_abbr.length ∧ i.team_abbr.length ≤ 3 ∧
      i.team_abbr ∈ validTeams)),
   ("percent_attempts_gte_eight_defenders",
      decide (0 ≤ i.percent_attempts_gte_eight_defenders ∧
        i.percent_attempts_gte_eight_defenders ≤ 100)),
   ("avg_time_to_los", decide (0 ≤ i.avg_time_to_los)),
   ("rush_attempts", coerceNonneg i.rush_attempts),
   ("rush_yards", coerceOK i.rush_yards),
   ("avg_rush_yards mismatch", avgRushCrossOK i),
   ("rush_touchdowns", coerceNonneg i.rush_touchdowns),
   ("rush_pct_over_expected", decide (0 ≤ i.rush_pct_over_expected ∧
      i.rush_pct_over_expected ≤ 1))]

/-- The Accepted record built from a RushingMetrics input. -/
def rushingRecord (i : RushingInput) : RushingMetrics :=
  { gsis_id := i.gsis_id, season := i.season, season_type := i.season_type,
    week := i.week, position := i.position, team_abbr := i.team_abbr,
    efficiency := i.efficiency,
    percent_attempts_gte_eight_defenders :=
      i.percent_attempts_gte_eight_defenders,
    avg_time_to_los := i.avg_time_to_los,
    rush_attempts := coerceVal i.rush_attempts,
    rush_yards := coerceVal i.rush_yards,
    avg_rush_yards := i.avg_rush_yards,
    rush_touchdowns := coerceVal i.rush_touchdowns,
    expected_rush_yards := i.expected_rush_yards,
    rush_yards_over_expected := i.rush_yards_over_expected,
    rush_yards_over_expected_per_att := i.rush_yards_over_expected_per_att,
    rush_pct_over_expected := i.rush_pct_over_expected }

/-- Construction of a RushingMetrics record. -/
def mkRushing (i : RushingInput) : Except String RushingMetrics :=
  match firstFail (rushingChecks i) with
  | some e => .error e
  | none => .ok (rushingRecord i)

/-- A fully valid RushingMetrics input with rush_yards=100,
rush_attempts=20, avg_rush_yards=5.0, as in the end-to-end example. -/
def rushingEx1 : RushingInput :=
  { gsis_id := "00-0037263", season := 2024, season_type := "REG", week := 1,
    position := "RB", team_abbr := "ATL", efficiency := 0,
    percent_attempts_gte_eight_defenders := 50, avg_time_to_los := 3,
    rush_attempts := .vint 20, rush_yards := .vint 100, avg_rush_yards := 5,
    rush_touchdowns := .vint 1, expected_rush_yards := 90,
    rush_yards_over_expected := 10, rush_yards_over_expected_per_att := 0,
    rush_pct_over_expected := 0 }

/-- The same input with avg_rush_yards=5.5 instead. -/
def rushingEx2 : RushingInput :=
  { rushingEx1 with avg_rush_yards := Rat.divInt 11 2 }

/-- A fully valid ReceivingMetrics input (2 receptions of 4 targets,
catch_percentage 50). -/
def receivingEx1 : ReceivingInput :=
  { gsis_id := "00-0034407", season := 2024, season_type := "REG", week := 1,
    position := "WR", team_abbr := "ATL", avg_cushion := 5,
    avg_separation := 3, avg_intended_air_yards := 8,
    percent_share_of_intended_air_yards := 20, receptions := .vint 2,
    targets := .vint 4, catch_percentage := 50, yards := 30,
    rec_touchdowns := .vint 0, avg_yac := 4, avg_expected_yac := 4,
    avg_yac_above_expectation := 0 }

/-- The accepted receiving input of C1 with receptions replaced by the
float 2.5 (which the to_int validator truncates to 2). -/
def receivingEx4 : ReceivingInput :=
  { receivingEx1 with receptions := .vfloat (Rat.divInt 5 2) }

/-- The validate_gsis_id validator read as identifier canonicalization: a
string matching ##-####### is returned unchanged, anything else fails. -/
def canonicalize (s : String) : Except String String :=
  if gsisMatch s then .ok s else .error "IdentityFormatError"

/-- Strict canonical form: two digits, hyphen, seven digits. -/
def isCanonicalKey (s : String) : Bool := gsisCore s.toList

/-- Raw construction input for PassingMetrics.  In the source all four
validators (gsis format, season type, team abbreviation, position) and the
to_int coercion hook are defined at module level, outside the class body,
so they are never attached to the model: only the declared Field
constraints apply, and the class has no position or team_abbr field at
all.  Integer fields therefore arrive already typed. -/
structure PassingInput where
  gsis_id : String
  season : Int
  season_type : String
  week : Int
  avg_time_to_throw : Rat
  avg_completed_air_yards : Rat
  avg_intended_air_yards : Rat
  avg_air_yards_differential : Rat
  aggressiveness : Rat
  max_completed_air_distance : Rat
  avg_air_yards_to_sticks : Rat
  attempts : Int
  pass_yards : Rat
  pass_touchdowns : Int
  interceptions : Int
  passer_rating : Rat
  completions : Int
  completion_percentage : Rat
  expected_completion_percentage : Rat
  completion_percentage_above_expectation : Rat
  avg_air_distance : Rat
  max_air_distance : Rat
  sacks : Int
  sack_yards : Rat
  sack_fumbles : Int
  sack_fumbles_lost : Int
  deriving DecidableEq

/-- A validated PassingMetrics record. -/
structure PassingMetrics where
  gsis_id : String
  season : Int
  season_type : String
  week : Int
  avg_time_to_throw : Rat
  avg_completed_air_yards : Rat
  avg_intended_air_yards : Rat
  avg_air_yards_differential : Rat
  aggressiveness : Rat
  max_completed_air_distance : Rat
  avg_air_yards_to_sticks : Rat
  attempts : Int
  pass_yards : Rat
  pass_touchdowns : Int
  interceptions : Int
  passer_rating : Rat
  completions : Int
  completion_percentage : Rat
  expected_completion_percentage : Rat
  completion_percentage_above_expectation : Rat
  avg_air_distance : Rat
  max_air_distance : Rat
  sacks : Int
  sack_yards : Rat
  sack_fumbles : Int
  sack_fumbles_lost : Int
  deriving DecidableEq

/-- The ordered per-field checks of PassingMetrics construction: only the
declared Field constraints (the module-level validators never run). -/
def passingChecks (i : PassingInput) : List (String × Bool) :=
  [("gsis_id", decide (i.gsis_id.length = 10)),
   ("season", decide (1999 ≤ i.season ∧ i.season ≤ 2025)),
   ("season_type", decide (3 ≤ i.season_type.length ∧
      i.season_type.length ≤ 4)),
   ("week", decide (0 ≤ i.week)),
   ("avg_time_to_throw", decide (0 ≤ i.avg_time_to_throw)),
   ("avg_completed_air_yards", decide (0 ≤ i.avg_completed_air_yards)),
   ("avg_intended_air_yards", decide (0 ≤ i.avg_intended_air_yards)),
   ("aggressiveness", decide (0 ≤ i.aggressiveness)),
   ("attempts", decide (0 ≤ i.attempts)),
   ("pass_touchdowns", decide (0 ≤ i.pass_touchdowns)),
   ("interceptions", decide (0 ≤ i.interceptions)),
   ("completions", decide (0 ≤ i.completions)),
   ("completion_percentage", decide (0 ≤ i.completion_percentage)),
   ("expected_completion_percentage",
      decide (0 ≤ i.expected_completion_percentage)),
   ("sacks", decide (0 ≤ i.sacks)),
   ("sack_yards", decide (0 ≤ i.sack_yards)),
   ("sack_fumbles", decide (0 ≤ i.sack_fumbles)),
   ("sack_fumbles_lost", decide (0 ≤ i.sack_fumbles_lost))]

/-- The Accepted record built from a PassingMetrics input. -/
def passingRecord (i : PassingInput) : PassingMetrics :=
  { gsis_id := i.gsis_id, season := i.season, season_type := i.season_type,
    week := i.week, avg_time_to_throw := i.avg_time_to_throw,
    avg_completed_air_yards := i.avg_completed_air_yards,
    avg_intended_air_yards := i.avg_intended_air_yards,
    avg_air_yards_differential := i.avg_air_yards_differential,
    aggressiveness := i.aggressiveness,
    max_completed_air_distance := i.max_completed_air_distance,
    avg_air_yards_to_sticks := i.avg_air_yards_to_sticks,
    attempts := i.attempts, pass_yards := i.pass_yards,
    pass_touchdowns := i.pass_touchdowns,
    interceptions := i.interceptions, passer_rating := i.passer_rating,
    completions := i.completions,
    completion_percentage := i.completion_percentage,
    expected_completion_percentage := i.expected_completion_percentage,
    completion_percentage_above_expectation :=
      i.completion_percentage_above_expectation,
    avg_air_distance := i.avg_air_distance,
    max_air_distance := i.max_air_distance, sacks := i.sacks,
    sack_yards := i.sack_yards, sack_fumbles := i.sack_fumbles,
    sack_fumbles_lost := i.sack_fumbles_lost }

/-- Construction of a PassingMetrics record. -/
def mkPassing (i : PassingInput) : Except String PassingMetrics :=
  match firstFail (passingChecks i) with
  | some e => .error e
  | none => .ok (passingRecord i)

/-- Raw construction input for Player.  The source's validate_player_id
validator is declared for a field named player_id that does not exist on
the model, so no format check applies to gsis_id beyond its length; the
team field has only length constraints; offense_snaps passes through the
to_int hook. -/
structure PlayerInput where
  gsis_id : String
  espn_id : Int
  pfr_id : String
  name : String
  status : String
  team : String
  position : String
  height : Rat
  weight : Rat
  college : String
  years_exp : Int
  age : Rat
  offense_snaps : PyVal
  offense_pct : Rat
  fantasy_points : Rat
  fantasy_points_ppr : Rat
  deriving DecidableEq

/-- A validated Player record. -/
structure Player where
  gsis_id : String
  espn_id : Int
  pfr_id : String
  name : String
  status : String
  team : String
  position : String
  height : Rat
  weight : Rat
  college : String
  years_exp : Int
  age : Rat
  offense_snaps : Int
  offense_pct : Rat
  fantasy_points : Rat
  fantasy_points_ppr : Rat
  deriving DecidableEq

/-- The ordered per-field checks of Player construction. -/
def playerChecks (i : PlayerInput) : List (String × Bool) :=
  [("gsis_id", decide (i.gsis_id.length = 10)),
   ("pfr_id", decide (1 ≤ i.pfr_id.length)),
   ("name", decide (1 ≤ i.name.length)),
   ("status", decide (2 ≤ i.status.length ∧ i.status.length ≤ 3)),
   ("team", decide (2 ≤ i.team.length ∧ i.team.length ≤ 3)),
   ("position", decide (1 ≤ i.position.length ∧ i.position.length ≤ 3 ∧
      i.position ∈ validPositions)),
   ("height", decide (60 < i.height ∧ i.height < 90)),
   ("weight", decide (150 < i.weight ∧ i.weight < 450)),
   ("college", decide (1 ≤ i.college.length)),
   ("age", decide (18 ≤ i.age)),
   ("offense_snaps", coerceNonneg i.offense_snaps),
   ("offense_pct", decide (0 < i.offense_pct))]

/-- The Accepted record built from a Player input. -/
def playerRecord (i : PlayerInput) : Player :=
  { gsis_id := i.gsis_id, espn_id := i.espn_id, pfr_id := i.pfr_id,
    name := i.name, status := i.status, team := i.team,
    position := i.position, height := i.height, weight := i.weight,
    college := i.college, years_exp := i.years_exp, age := i.age,
    offense_snaps := coerceVal i.offense_snaps,
    offense_pct := i.offense_pct, fantasy_points := i.fantasy_points,
    fantasy_points_ppr := i.fantasy_points_ppr }

/-- Construction of a Player record. -/
def mkPlayer (i : PlayerInput) : Except String Player :=
  match firstFail (playerChecks i) with
  | some e => .error e
  | none => .ok (playerRecord i)

/-- A fully valid PassingMetrics input. -/
def passingEx1 : PassingInput :=
  { gsis_id := "00-0033873", season := 2024, season_type := "REG", week := 1,
    avg_time_to_throw := 3, avg_completed_air_yards := 6,
    avg_intended_air_yards := 8, avg_air_yards_differential := 2,
    aggressiveness := 15, max_completed_air_distance := 50,
    avg_air_yards_to_sticks := 1, attempts := 30, pass_yards := 250,
    pass_touchdowns := 2, interceptions := 1, passer_rating := 95,
    completions := 20, completion_percentage := 66,
    expected_completion_percentage := 64,
    completion_percentage_above_expectation := 2, avg_air_distance := 10,
    max_air_distance := 55, sacks := 2, sack_yards := 14,
    sack_fumbles := 0, sack_fumbles_lost := 0 }

/-- A Player input whose team, "ZZ", is not one of the 32 NFL
abbreviations (every other field valid). -/
def playerExBadTeam : PlayerInput :=
  { gsis_id := "00-0034407", espn_id := 12345, pfr_id := "XxYy00",
    name := "Test Player", status := "ACT", team := "ZZ",
    position := "QB", height := 75, weight := 220, college := "State",
    years_exp := 3, age := 27, offense_snaps := .vint 50,
    offense_pct := Rat.divInt 8 10, fantasy_points := 12,
    fantasy_points_ppr := 15 }

/-- The frozen flag of each ReceivingMetrics field, as declared by its
Field(frozen=...) annotations. -/
def receivingFrozen : List (String × Bool) :=
  [("gsis_id", true), ("season", false), ("season_type", false),
   ("week", false), ("position", false), ("team_abbr", false),
   ("avg_cushion", false), ("avg_separation", false),
   ("avg_intended_air_yards", false),
   ("percent_share_of_intended_air_yards", false), ("receptions", false),
   ("targets", false), ("catch_percentage", false), ("yards", false),
   ("rec_touchdowns", false), ("avg_yac", false),
   ("avg_expected_yac", false), ("avg_yac_above_expectation", false)]

/-- The frozen flag of each RushingMetrics field. -/
def rushingFrozen : List (String × Bool) :=
  [("gsis_id", true), ("season", false), ("season_type", false),
   ("week", false), ("position", false), ("team_abbr", false),
   ("efficiency", false), ("percent_attempts_gte_eight_defenders", false),
   ("avg_time_to_los", false), ("rush_attempts", false),
   ("rush_yards", false), ("avg_rush_yards", false),
   ("rush_touchdowns", false), ("expected_rush_yards", false),
   ("rush_yards_over_expected", false),
   ("rush_yards_over_expected_per_att", false),
   ("rush_pct_over_expected", false)]

/-- The frozen flag of each PassingMetrics field. -/
def passingFrozen : List (String × Bool) :=
  [("gsis_id", true), ("season", false), ("season_type", false),
   ("week", false), ("avg_time_to_throw", false),
   ("avg_completed_air_yards", false), ("avg_intended_air_yards", false),
   ("avg_air_yards_differential", false), ("aggressiveness", false),
   ("max_completed_air_distance", false),
   ("avg_air_yards_to_sticks", false), ("attempts", false),
   ("pass_yards", false), ("pass_touchdowns", false),
   ("interceptions", false), ("passer_rating", false),
   ("completions", false), ("completion_percentage", false),
   ("expected_completion_percentage", false),
   ("completion_percentage_above_expectation", false),
   ("avg_air_distance", false), ("max_air_distance", false),
   ("sacks", false), ("sack_yards", false), ("sack_fumbles", false),
   ("sack_fumbles_lost", false)]

/-- The frozen flag of each Player field. -/
def playerFrozen : List (String × Bool) :=
  [("gsis_id", true), ("espn_id", true), ("pfr_id", true),
   ("name", true), ("status", false), ("team", false),
   ("position", false), ("height", false), ("weight", false),
   ("college", true), ("years_exp", false), ("age", false),
   ("offense_snaps", false), ("offense_pct", false),
   ("fantasy_points", false), ("fantasy_points_ppr", false)]

/-- pydantic assignment semantics for these models: validate_assignment
is not enabled, so assigning to a field after construction raises exactly
when the field was declared frozen=True. -/
def rejectsAssignment (fields : List (String × Bool)) (f : String) : Bool :=
  (fields.lookup f).getD false

/-- Post-construction assignment to the week field of a ReceivingMetrics
record, under the assignment semantics above. -/
def setWeek (r : ReceivingMetrics) (w : Int) : Option ReceivingMetrics :=
  if rejectsAssignment receivingFrozen "week" then none
  else some { r with week := w }

/-- Stable insertion into an ascending list (the structural sort used in
place of pandas' sorting, which must evaluate inside decide). -/
def insertLe {α : Type} (le : α → α → Bool) (x : α) : List α → List α
  | [] => [x]
  | y :: ys => if le x y then x :: y :: ys else y :: insertLe le x ys

/-- Stable ascending insertion sort. -/
def sortLe {α : Type} (le : α → α → Bool) (l : List α) : List α :=
  l.foldr (insertLe le) []

/-- One raw snap-count row: player name, season, offensive snaps. -/
structure SnapRow where
  name : String
  season : Int
  snaps : Rat
  deriving DecidableEq

/-- The distinct seasons of the input, ascending: the pivot's columns. -/
def seasonsOf (rows : List SnapRow) : List Int :=
  sortLe (fun a b => decide (a ≤ b)) ((rows.map (fun r => r.season)).dedup)

/-- Lexicographic comparison of character lists by code point. -/
def charListLe : List Char → List Char → Bool
  | [], _ => true
  | _ :: _, [] => false
  | x :: xs, y :: ys =>
    if x.toNat < y.toNat then true
    else if y.toNat < x.toNat then false
    else charListLe xs ys

/-- The distinct player names of the input, ascending: the pivot's index. -/
def namesOf (rows : List SnapRow) : List String :=
  sortLe (fun a b => charListLe a.toList b.toList)
    ((rows.map (fun r => r.name)).dedup)

/-- Whether (name, season) has at least one input row: after the
groupby-sum and pivot, the cell is non-NaN exactly in that case. -/
def hasCell (rows : List SnapRow) (n : String) (s : Int) : Bool :=
  rows.any (fun r => r.name == n && r.season == s)

/-- groupby(['name','season']).sum of offense_snaps. -/
def sumCell (rows : List SnapRow) (n : String) (s : Int) : Rat :=
  (rows.filter (fun r => r.name == n && r.season == s)).foldr
    (fun r acc => qadd r.snaps acc) 0

/-- A pivot cell: the summed snaps, or missing when no row exists. -/
def cell (rows : List SnapRow) (n : String) (s : Int) : Option Rat :=
  if hasCell rows n s then some (sumCell rows n s) else none

/-- dropna(subset=['2024_snaps']): names that keep a row after dropping
players with no 2024 value. -/
def keptNames (rows : List SnapRow) : List String :=
  (namesOf rows).filter (fun n => hasCell rows n 2024)

/-- One pivot row after fillna(0): the player's snaps per season. -/
def filledRow (rows : List SnapRow) (n : String) : List Rat :=
  (seasonsOf rows).map (fun s => (cell rows n s).getD 0)

/-- The pivoted, dropna'd, fillna(0)'d table. -/
def filledTable (rows : List SnapRow) : List (String × List Rat) :=
  (keptNames rows).map (fun n => (n, filledRow rows n))

/-- The most recent year's column (the hard-coded 2024_snaps) across the
remaining players. -/
def col2024 (rows : List SnapRow) : List Rat :=
  (filledTable rows).map
    (fun r => r.2.getD ((seasonsOf rows).indexOf 2024) 0)

/-- pandas Series.quantile(0.66) with linear interpolation: with the k
sorted values v_0..v_(k-1) and h = 0.66*(k-1), the result is
v_floor(h) + (h - floor(h)) * (v_(floor(h)+1) - v_floor(h)). -/
def quantile66 (l : List Rat) : Rat :=
  let s := sortLe (fun a b => decide (a ≤ b)) l
  let k := s.length
  if k = 0 then 0
  else
    let h : Rat := qmul (Rat.divInt 33 50) (Rat.divInt ((k : Int) - 1) 1)
    let idx : Nat := h.floor.toNat
    let lo := s.getD idx 0
    let hi := s.getD (idx + 1) lo
    qadd lo (qmul (qsub h (Rat.divInt h.floor 1)) (qsub hi lo))

/-- The single 66th-percentile threshold of the 2024 column. -/
def snapThreshold (rows : List SnapRow) : Rat := quantile66 (col2024 rows)

/-- The failures of create_snap_counts_by_year_df: the KeyError raised by
dropna when the hard-coded 2024_snaps column is absent, and the
ValueError("No snap count columns found...") guard (the spec's
EmptyAggregateError). -/
inductive AggErr where
  | missingColumn (c : String)
  | noSnapCols
  deriving DecidableEq

/-- create_snap_counts_by_year_df: groupby-sum, pivot, dropna on
2024_snaps (raising a missing-column KeyError when that column does not
exist), fillna 0, the no-snap-columns guard, the 66th-percentile
threshold of the most recent column, and the filter keeping players with
some season strictly above that one threshold. -/
def createSnapCountsByYear (rows : List SnapRow) :
    Except AggErr (List (String × List Rat)) :=
  if ¬ ((seasonsOf rows).contains 2024 = true) then
    .error (.missingColumn "2024_snaps")
  else if (seasonsOf rows).isEmpty then .error .noSnapCols
  else
    .ok ((filledTable rows).filter
      (fun r => r.2.any (fun v => decide (snapThreshold rows < v))))

/-- The three-player scenario of C3: A with 400 then 0 snaps, B with 0
then 900, C with a 2023 row only. -/
def c3rows : List SnapRow :=
  [⟨"A", 2023, 400⟩, ⟨"A", 2024, 0⟩, ⟨"B", 2023, 0⟩, ⟨"B", 2024, 900⟩,
   ⟨"C", 2023, 0⟩]

/-- A raw table row: a mapping from column name to (string) value. -/
abbrev Row := List (String × String)

/-- Row selection as the boolean-mask filters of generate_data_frames
(df[df['col'] == value] and isin-style masks): keep, in order, exactly
the rows satisfying the predicate. -/
def filterRows (p : Row → Bool) (t : List Row) : List Row := t.filter p

/-- Column projection (df[[cols...]]): restrict each row to the
requested columns, in the requested order. -/
def selectColumns (cols : List String) (t : List Row) : List Row :=
  t.map (fun r => cols.filterMap (fun c => (r.lookup c).map (fun v => (c, v))))

/-- The equality predicate used by create_passing_dfs
(df[df['position'] == 'QB']). -/
def positionEq (pos : String) (r : Row) : Bool :=
  r.lookup "position" == some pos

/-- The membership predicate used by create_all_dfs
(df[df['position'].isin([...])]). -/
def positionIsin (ps : List String) (r : Row) : Bool :=
  match r.lookup "position" with
  | some v => ps.contains v
  | none => false

/-- A two-row table for the witness. -/
def rowTableEx : List Row :=
  [[("position", "QB"), ("season", "2024")],
   [("position", "RB"), ("season", "2024")]]

theorem divInt_eq_cast_div (a b : Int) :
    Rat.divInt a b = (a : Rat) / (b : Rat) := Rat.divInt_eq_div a b

theorem qabs_eq (a : Rat) : qabs a = |a| := by
  unfold qabs
  rcases lt_or_ge a 0 with h | h
  · rw [if_pos h, abs_of_neg h]
  · rw [if_neg (not_lt.mpr h), abs_of_nonneg h]

theorem qadd_eq (a b : Rat) : qadd a b = a + b := by
  unfold qadd
  rw [Rat.divInt_eq_div]
  have ha : ((a.den : Rat)) ≠ 0 := Nat.cast_ne_zero.mpr a.den_nz
  have hb : ((b.den : Rat)) ≠ 0 := Nat.cast_ne_zero.mpr b.den_nz
  rw [eq_comm]
  conv_lhs => rw [← Rat.num_div_den a, ← Rat.num_div_den b]
  push_cast
  field_simp

theorem qmul_eq (a b : Rat) : qmul a b = a * b := by
  unfold qmul
  rw [Rat.divInt_eq_div]
  have ha : ((a.den : Rat)) ≠ 0 := Nat.cast_ne_zero.mpr a.den_nz
  have hb : ((b.den : Rat)) ≠ 0 := Nat.cast_ne_zero.mpr b.den_nz
  rw [eq_comm]
  conv_lhs => rw [← Rat.num_div_den a, ← Rat.num_div_den b]
  push_cast
  field_simp

theorem qsub_eq (a b : Rat) : qsub a b = a - b := by
  unfold qsub
  rw [qadd_eq]
  ring

theorem qdiv_eq (a b : Rat) : qdiv a b = a / b := by
  unfold qdiv
  rcases eq_or_ne b 0 with hb0 | hb0
  · subst hb0
    simp [Rat.divInt_eq_div]
  · have ha : ((a.den : Rat)) ≠ 0 := Nat.cast_ne_zero.mpr a.den_nz
    have hb : ((b.den : Rat)) ≠ 0 := Nat.cast_ne_zero.mpr b.den_nz
    have hbn : ((b.num : Rat)) ≠ 0 := by
      exact_mod_cast Int.cast_ne_zero.mpr (Rat.num_ne_zero.mpr hb0)
    rw [Rat.divInt_eq_div, eq_comm]
    conv_lhs => rw [← Rat.num_div_den a, ← Rat.num_div_den b]
    push_cast
    field_simp

theorem coerceNonneg_iff (v : PyVal) :
    coerceNonneg v = true ↔ ∃ r, toIntOpt v = some r ∧ 0 ≤ r := by
  unfold coerceNonneg
  cases h : toIntOpt v <;> simp

theorem coerceVal_eq {v : PyVal} {r : Int} (h : toIntOpt v = some r) :
    coerceVal v = r := by
  unfold coerceVal
  rw [h]
  rfl

theorem catchCross_bound {i : ReceivingInput} {r t : Int}
    (hr : toIntOpt i.receptions = some r) (ht : toIntOpt i.targets = some t)
    (hr0 : 0 ≤ r) (ht0 : 0 < t) (hOK : catchCrossOK i = true) :
    |i.catch_percentage - (r : Rat) / (t : Rat) * 100| ≤ 1 / 100 := by
  unfold catchCrossOK at hOK
  rw [hr, ht] at hOK
  dsimp only at hOK
  rw [if_pos ⟨hr0, le_of_lt ht0, ht0⟩] at hOK
  rw [decide_eq_true_eq, qabs_eq, qsub_eq, qmul_eq, divInt_eq_cast_div,
    divInt_eq_cast_div] at hOK
  simpa using hOK

theorem catchCross_of_zero_targets {i : ReceivingInput}
    (h : toIntOpt i.targets = some 0) : catchCrossOK i = true := by
  unfold catchCrossOK
  rw [h]
  cases hr : toIntOpt i.receptions
  · rfl
  · dsimp only
    rw [if_neg]
    intro hc
    exact absurd hc.2.2 (lt_irrefl 0)

theorem firstFail_eq_none_iff (cs : List (String × Bool)) :
    firstFail cs = none ↔ ∀ p ∈ cs, p.2 = true := by
  induction cs with
  | nil => simp [firstFail]
  | cons hd tl ih =>
    obtain ⟨n, b⟩ := hd
    cases b
    · simp [firstFail]
    · simp [firstFail, ih]

theorem firstFail_some_mem {cs : List (String × Bool)} {e : String}
    (h : firstFail cs = some e) : (e, false) ∈ cs := by
  induction cs with
  | nil => exact absurd h (by simp [firstFail])
  | cons hd tl ih =>
    obtain ⟨n, b⟩ := hd
    cases b
    · rw [firstFail, if_neg (by simp)] at h
      rw [Option.some.injEq] at h
      subst h
      exact List.mem_cons_self _ _
    · rw [firstFail, if_pos rfl] at h
      exact List.mem_cons_of_mem _ (ih h)

theorem mkReceiving_ok_iff (i : ReceivingInput) (rec : ReceivingMetrics) :
    mkReceiving i = .ok rec ↔
      (∀ p ∈ receivingChecks i, p.2 = true) ∧ rec = receivingRecord i := by
  unfold mkReceiving
  cases hf : firstFail (receivingChecks i)
  · rw [firstFail_eq_none_iff] at hf
    dsimp only
    rw [Except.ok.injEq]
    constructor
    · intro h
      exact ⟨hf, h.symm⟩
    · intro h
      exact h.2.symm
  · rename_i e
    have hm := firstFail_some_mem hf
    constructor
    · intro h
      exact absurd h (by simp)
    · intro ⟨hall, _⟩
      exact absurd (hall _ hm) (by simp)

theorem mkReceiving_error_name {i : ReceivingInput} {e : String}
    (h : mkReceiving i = .error e) : (e, false) ∈ receivingChecks i := by
  unfold mkReceiving at h
  cases hf : firstFail (receivingChecks i) <;> rw [hf] at h
  · exact absurd h (by simp)
  · rw [Except.error.injEq] at h
    subst h
    exact firstFail_some_mem hf

/-- C1: for a ReceivingMetrics construction whose targets coerce to a
positive integer, acceptance forces catch_percentage to be within 0.01 of
receptions/targets*100 (and the stored value is the input value, never a
corrected one); a violation by more than 0.01 forces rejection; and when
targets coerce to 0 the cross-field check never causes the rejection. -/
theorem receiving_catch_percentage_consistency :
    (∀ (i : ReceivingInput) (rec : ReceivingMetrics), mkReceiving i = .ok rec →
      0 < rec.targets →
      |rec.catch_percentage - (rec.receptions : Rat) / (rec.targets : Rat) * 100| ≤ 1 / 100 ∧
      rec.catch_percentage = i.catch_percentage) ∧
    (∀ (i : ReceivingInput) (r t : Int), toIntOpt i.receptions = some r →
      toIntOpt i.targets = some t → 0 < t →
      1 / 100 < |i.catch_percentage - (r : Rat) / (t : Rat) * 100| →
      accepted (mkReceiving i) = false) ∧
    (∀ i : ReceivingInput, toIntOpt i.targets = some 0 →
      mkReceiving i ≠ .error "catch_percentage mismatch") := by
  refine ⟨?_, ?_, ?_⟩
  · intro i rec h htpos
    rw [mkReceiving_ok_iff] at h
    obtain ⟨hall, hrec⟩ := h
    simp only [receivingChecks, List.mem_cons, List.not_mem_nil, or_false,
      forall_eq_or_imp, forall_eq] at hall
    obtain ⟨-, -, -, -, -, -, -, -, -, hrc, htg, hcross, -, -⟩ := hall
    obtain ⟨r, hr, hr0⟩ := (coerceNonneg_iff _).mp hrc
    obtain ⟨t, ht, ht0⟩ := (coerceNonneg_iff _).mp htg
    subst hrec
    have hrt : (receivingRecord i).targets = t := coerceVal_eq ht
    have hrr : (receivingRecord i).receptions = r := coerceVal_eq hr
    rw [hrt, hrr]
    rw [hrt] at htpos
    exact ⟨catchCross_bound hr ht hr0 htpos hcross, rfl⟩
  · intro i r t hr ht htpos hviol
    cases hmk : mkReceiving i with
    | error e => rfl
    | ok rec =>
      exfalso
      rw [mkReceiving_ok_iff] at hmk
      obtain ⟨hall, -⟩ := hmk
      simp only [receivingChecks, List.mem_cons, List.not_mem_nil, or_false,
        forall_eq_or_imp, forall_eq] at hall
      obtain ⟨-, -, -, -, -, -, -, -, -, hrc, htg, hcross, -, -⟩ := hall
      obtain ⟨r2, hr2, hr20⟩ := (coerceNonneg_iff _).mp hrc
      rw [hr] at hr2
      rw [Option.some.injEq] at hr2
      subst hr2
      exact absurd (catchCross_bound hr ht hr20 htpos hcross)
        (not_le.mpr hviol)
  · intro i h0 hmk
    have hC := catchCross_of_zero_targets h0
    have hm := mkReceiving_error_name hmk
    simp only [receivingChecks, List.mem_cons, List.not_mem_nil, or_false,
      Prod.mk.injEq] at hm
    rcases hm with h | h | h | h | h | h | h | h | h | h | h | h | h | h <;>
      first
        | exact absurd h.1 (by decide)
        | exact absurd h.2 (by rw [hC]; decide)

theorem mkRushing_ok_iff (i : RushingInput) (rec : RushingMetrics) :
    mkRushing i = .ok rec ↔
      (∀ p ∈ rushingChecks i, p.2 = true) ∧ rec = rushingRecord i := by
  unfold mkRushing
  cases hf : firstFail (rushingChecks i)
  · rw [firstFail_eq_none_iff] at hf
    dsimp only
    rw [Except.ok.injEq]
    constructor
    · intro h
      exact ⟨hf, h.symm⟩
    · intro h
      exact h.2.symm
  · rename_i e
    have hm := firstFail_some_mem hf
    constructor
    · intro h
      exact absurd h (by simp)
    · intro ⟨hall, _⟩
      exact absurd (hall _ hm) (by simp)

theorem avgRushCross_bound {i : RushingInput} {y a : Int}
    (hy : toIntOpt i.rush_yards = some y)
    (ha : toIntOpt i.rush_attempts = some a)
    (ha0 : 0 < a) (hOK : avgRushCrossOK i = true) :
    |i.avg_rush_yards - (y : Rat) / (a : Rat)| ≤ 1 / 100 := by
  unfold avgRushCrossOK at hOK
  rw [hy, ha] at hOK
  dsimp only at hOK
  rw [if_pos ⟨le_of_lt ha0, ha0⟩] at hOK
  rw [decide_eq_true_eq, qabs_eq, qsub_eq, divInt_eq_cast_div,
    divInt_eq_cast_div] at hOK
  simpa using hOK

/-- C2: the end-to-end rushing example: rush_yards=100, rush_attempts=20,
avg_rush_yards=5.0 is Accepted; the same input with avg_rush_yards=5.5 is
Rejected with an error naming avg_rush_yards; and in general every
Accepted record with rush_attempts > 0 satisfies the +-0.01 bound. -/
theorem rushing_avg_yards_example_and_bound :
    accepted (mkRushing rushingEx1) = true ∧
    mkRushing rushingEx2 = .error "avg_rush_yards mismatch" ∧
    (∀ (i : RushingInput) (rec : RushingMetrics), mkRushing i = .ok rec →
      0 < rec.rush_attempts →
      |rec.avg_rush_yards - (rec.rush_yards : Rat) / (rec.rush_attempts : Rat)| ≤ 1 / 100) := by
  refine ⟨by decide, by rfl, ?_⟩
  intro i rec h hapos
  rw [mkRushing_ok_iff] at h
  obtain ⟨hall, hrec⟩ := h
  simp only [rushingChecks, List.mem_cons, List.not_mem_nil, or_false,
    forall_eq_or_imp, forall_eq] at hall
  obtain ⟨-, -, -, -, -, -, -, -, hra, hry, hcross, -, -⟩ := hall
  obtain ⟨a, ha, ha0⟩ := (coerceNonneg_iff _).mp hra
  rw [coerceOK, Option.isSome_iff_exists] at hry
  obtain ⟨y, hy⟩ := hry
  subst hrec
  have h1 : (rushingRecord i).rush_attempts = a := coerceVal_eq ha
  have h2 : (rushingRecord i).rush_yards = y := coerceVal_eq hy
  rw [h1, h2]
  rw [h1] at hapos
  exact avgRushCross_bound hy ha hapos hcross

/-- Witness: the general bound of C2 instantiated at the accepted example
input (avg 5.0 against 100/20). -/
theorem rushing_avg_yards_example_and_bound_witness :
    |(5 : Rat) - ((100 : Int) : Rat) / ((20 : Int) : Rat)| ≤ 1 / 100 :=
  rushing_avg_yards_example_and_bound.2.2 rushingEx1
    (rushingRecord rushingEx1) (by rfl) (by decide)

/-- Witness: C1's acceptance bound at the concrete accepted input. -/
theorem receiving_catch_percentage_consistency_witness :
    |(50 : Rat) - ((2 : Int) : Rat) / ((4 : Int) : Rat) * 100| ≤ 1 / 100 ∧
    (50 : Rat) = (50 : Rat) :=
  receiving_catch_percentage_consistency.1 receivingEx1
    (receivingRecord receivingEx1) (by rfl) (by decide)

theorem ratFloor_eq_intFloor (q : Rat) : q.floor = ⌊q⌋ := by
  rw [Rat.floor_def, Rat.floor_def']

theorem truncRat_abs_le (q : Rat) : |(truncRat q : Rat)| ≤ |q| := by
  unfold truncRat
  rcases lt_or_ge q 0 with h | h
  · rw [if_pos h, ratFloor_eq_intFloor]
    have h1 : (0 : Rat) ≤ ⌊-q⌋ := by
      rw [← Int.cast_zero]
      exact_mod_cast Int.floor_nonneg.mpr (by linarith)
    rw [abs_of_neg h]
    push_cast
    rw [abs_of_nonpos (by linarith)]
    simpa using Int.floor_le (-q)
  · rw [if_neg (not_lt.mpr h), ratFloor_eq_intFloor]
    have h1 : (0 : Rat) ≤ (⌊q⌋ : Rat) := by
      exact_mod_cast Int.floor_nonneg.mpr h
    rw [abs_of_nonneg h, abs_of_nonneg h1]
    exact Int.floor_le q

theorem truncRat_abs_gt (q : Rat) : |q| < |(truncRat q : Rat)| + 1 := by
  unfold truncRat
  rcases lt_or_ge q 0 with h | h
  · rw [if_pos h, ratFloor_eq_intFloor]
    have h0 : (0 : Rat) ≤ (⌊-q⌋ : Rat) := by
      exact_mod_cast Int.floor_nonneg.mpr (by linarith)
    rw [abs_of_neg h]
    push_cast
    rw [abs_of_nonpos (by linarith)]
    have := Int.lt_floor_add_one (-q)
    linarith
  · rw [if_neg (not_lt.mpr h), ratFloor_eq_intFloor]
    have h0 : (0 : Rat) ≤ (⌊q⌋ : Rat) := by
      exact_mod_cast Int.floor_nonneg.mpr h
    rw [abs_of_nonneg h, abs_of_nonneg h0]
    exact Int.lt_floor_add_one q

/-- C4 counterexample: a float with nonzero fractional part is not
rejected by the integer coercion: receptions=2.5 is truncated to 2 and
the whole ReceivingMetrics construction is Accepted (catch_percentage 50
matches the truncated value 2 of 4 targets). -/
theorem to_int_fractional_float_accepted :
    toIntOpt (.vfloat (Rat.divInt 5 2)) = some 2 ∧
    accepted (mkReceiving receivingEx4) = true ∧
    mkReceiving receivingEx4 = .ok (receivingRecord receivingEx4) ∧
    (receivingRecord receivingEx4).receptions = 2 :=
  ⟨by decide, by decide, by rfl, by decide⟩

/-- C4 amended: the to_int coercion accepts an int unchanged; accepts
every float, truncating toward zero (the result is within 1 of the input
and not larger in magnitude) rather than rejecting nonzero fractional
parts; accepts a string exactly when it parses as a float, truncating
likewise; rejects None; and an Accepted record stores exactly the
truncated value. -/
theorem to_int_coercion_characterization :
    (∀ n : Int, toIntOpt (.vint n) = some n) ∧
    (∀ q : Rat, toIntOpt (.vfloat q) = some (truncRat q) ∧
      |(truncRat q : Rat)| ≤ |q| ∧ |q| < |(truncRat q : Rat)| + 1) ∧
    (∀ s : String, toIntOpt (.vstr s) = (parsePyFloat s).map truncRat) ∧
    toIntOpt .vnone = none ∧
    (∀ (i : ReceivingInput) (rec : ReceivingMetrics) (q : Rat),
      mkReceiving i = .ok rec → i.receptions = .vfloat q →
      rec.receptions = truncRat q) := by
  refine ⟨fun n => rfl, fun q => ⟨rfl, truncRat_abs_le q, truncRat_abs_gt q⟩,
    fun s => rfl, rfl, ?_⟩
  intro i rec q hmk hq
  rw [mkReceiving_ok_iff] at hmk
  rw [hmk.2]
  show coerceVal i.receptions = truncRat q
  rw [hq]
  rfl

/-- Witness: C4's float clause at the concrete input 2.5. -/
theorem to_int_coercion_characterization_witness :
    toIntOpt (.vfloat (Rat.divInt 5 2)) = some (truncRat (Rat.divInt 5 2)) ∧
    |(truncRat (Rat.divInt 5 2) : Rat)| ≤ |Rat.divInt 5 2| ∧
    |Rat.divInt 5 2| < |(truncRat (Rat.divInt 5 2) : Rat)| + 1 :=
  to_int_coercion_characterization.2.1 (Rat.divInt 5 2)

/-- C9: on identifiers already in canonical form, canonicalization
succeeds, returns its input unchanged, and is therefore idempotent. -/
theorem canonicalize_idempotent :
    ∀ s : String, isCanonicalKey s = true →
      canonicalize s = .ok s ∧
      (canonicalize s).bind canonicalize = canonicalize s := by
  intro s h
  have hm : gsisMatch s = true := by
    unfold gsisMatch
    unfold isCanonicalKey at h
    rw [h, Bool.true_or]
  have h1 : canonicalize s = .ok s := by
    unfold canonicalize
    rw [if_pos hm]
  refine ⟨h1, ?_⟩
  rw [h1]
  exact h1

/-- Witness: C9 at the canonical identifier 00-0034407. -/
theorem canonicalize_idempotent_witness :
    canonicalize "00-0034407" = .ok "00-0034407" ∧
    (canonicalize "00-0034407").bind canonicalize =
      canonicalize "00-0034407" :=
  canonicalize_idempotent "00-0034407" (by decide)

theorem mkPlayer_ok_iff (i : PlayerInput) (rec : Player) :
    mkPlayer i = .ok rec ↔
      (∀ p ∈ playerChecks i, p.2 = true) ∧ rec = playerRecord i := by
  unfold mkPlayer
  cases hf : firstFail (playerChecks i)
  · rw [firstFail_eq_none_iff] at hf
    dsimp only
    rw [Except.ok.injEq]
    constructor
    · intro h
      exact ⟨hf, h.symm⟩
    · intro h
      exact h.2.symm
  · rename_i e
    have hm := firstFail_some_mem hf
    constructor
    · intro h
      exact absurd h (by simp)
    · intro ⟨hall, _⟩
      exact absurd (hall _ hm) (by simp)

/-- C10: the week upper bound is enforced inconsistently: every
ReceivingMetrics or RushingMetrics construction with week > 18 is
Rejected, while PassingMetrics (whose week field has only ge=0) accepts
every week >= 0 with all other fields held valid. -/
theorem week_upper_bound_inconsistency :
    (∀ i : ReceivingInput, 18 < i.week → accepted (mkReceiving i) = false) ∧
    (∀ i : RushingInput, 18 < i.week → accepted (mkRushing i) = false) ∧
    (∀ w : Int, 0 ≤ w →
      accepted (mkPassing { passingEx1 with week := w }) = true) := by
  refine ⟨?_, ?_, ?_⟩
  · intro i hw
    cases hf : firstFail (receivingChecks i) with
    | some e =>
      unfold mkReceiving
      rw [hf]
      rfl
    | none =>
      exfalso
      rw [firstFail_eq_none_iff] at hf
      have hmem : ("week", decide (0 ≤ i.week ∧ i.week ≤ 18)) ∈
          receivingChecks i := by
        simp [receivingChecks]
      have := of_decide_eq_true (hf _ hmem)
      exact absurd this.2 (not_le.mpr hw)
  · intro i hw
    cases hf : firstFail (rushingChecks i) with
    | some e =>
      unfold mkRushing
      rw [hf]
      rfl
    | none =>
      exfalso
      rw [firstFail_eq_none_iff] at hf
      have hmem : ("week", decide (0 ≤ i.week ∧ i.week ≤ 18)) ∈
          rushingChecks i := by
        simp [rushingChecks]
      have := of_decide_eq_true (hf _ hmem)
      exact absurd this.2 (not_le.mpr hw)
  · intro w hw
    have hnone : firstFail (passingChecks { passingEx1 with week := w }) =
        none := by
      have hw' : decide (0 ≤ w) = true := decide_eq_true hw
      simp [passingChecks, firstFail, hw']
      decide
    unfold mkPassing
    rw [hnone]
    rfl

/-- Witness: C10 at week 19 for receiving and rushing and week 0 for
passing. -/
theorem week_upper_bound_inconsistency_witness :
    accepted (mkReceiving { receivingEx1 with week := 19 }) = false ∧
    accepted (mkRushing { rushingEx1 with week := 19 }) = false ∧
    accepted (mkPassing { passingEx1 with week := 0 }) = true :=
  ⟨week_upper_bound_inconsistency.1 _ (by decide),
   week_upper_bound_inconsistency.2.1 _ (by decide),
   week_upper_bound_inconsistency.2.2 0 (by decide)⟩

/-- C5 counterexample: Player's team field carries only length
constraints, no membership check against the 32-team enumeration: a
Player with team "ZZ" is Accepted, not Rejected. -/
theorem player_invalid_team_accepted :
    accepted (mkPlayer playerExBadTeam) = true ∧
    (("ZZ" ∈ validTeams) ↔ False) ∧
    (playerRecord playerExBadTeam).team = "ZZ" :=
  ⟨by decide, by decide, by decide⟩

/-- C5 amended: ReceivingMetrics and RushingMetrics enforce both position
in {QB,RB,WR,TE} and team membership in the 32-team list; Player enforces
the position restriction but checks only the length (2..3) of team;
PassingMetrics has no position or team_abbr field at all (its validators
sit at module level and never run). -/
theorem position_team_enforcement :
    (∀ (i : ReceivingInput) (rec : ReceivingMetrics), mkReceiving i = .ok rec →
      rec.position ∈ validPositions ∧ rec.team_abbr ∈ validTeams) ∧
    (∀ (i : RushingInput) (rec : RushingMetrics), mkRushing i = .ok rec →
      rec.position ∈ validPositions ∧ rec.team_abbr ∈ validTeams) ∧
    (∀ (i : PlayerInput) (rec : Player), mkPlayer i = .ok rec →
      rec.position ∈ validPositions) ∧
    (∀ (i : PlayerInput) (rec : Player), mkPlayer i = .ok rec →
      2 ≤ rec.team.length ∧ rec.team.length ≤ 3) := by
  refine ⟨?_, ?_, ?_, ?_⟩
  · intro i rec h
    rw [mkReceiving_ok_iff] at h
    obtain ⟨hall, hrec⟩ := h
    subst hrec
    simp only [receivingChecks, List.mem_cons, List.not_mem_nil, or_false,
      forall_eq_or_imp, forall_eq] at hall
    obtain ⟨-, -, -, -, hpos, hteam, -, -, -, -, -, -, -, -⟩ := hall
    exact ⟨(of_decide_eq_true hpos).2.2, (of_decide_eq_true hteam).2.2⟩
  · intro i rec h
    rw [mkRushing_ok_iff] at h
    obtain ⟨hall, hrec⟩ := h
    subst hrec
    simp only [rushingChecks, List.mem_cons, List.not_mem_nil, or_false,
      forall_eq_or_imp, forall_eq] at hall
    obtain ⟨-, -, -, -, hpos, hteam, -, -, -, -, -, -, -⟩ := hall
    exact ⟨(of_decide_eq_true hpos).2.2, (of_decide_eq_true hteam).2.2⟩
  · intro i rec h
    rw [mkPlayer_ok_iff] at h
    obtain ⟨hall, hrec⟩ := h
    subst hrec
    simp only [playerChecks, List.mem_cons, List.not_mem_nil, or_false,
      forall_eq_or_imp, forall_eq] at hall
    obtain ⟨-, -, -, -, -, hpos, -, -, -, -, -, -⟩ := hall
    exact (of_decide_eq_true hpos).2.2
  · intro i rec h
    rw [mkPlayer_ok_iff] at h
    obtain ⟨hall, hrec⟩ := h
    subst hrec
    simp only [playerChecks, List.mem_cons, List.not_mem_nil, or_false,
      forall_eq_or_imp, forall_eq] at hall
    obtain ⟨-, -, -, -, hteam, -, -, -, -, -, -, -⟩ := hall
    exact of_decide_eq_true hteam

/-- Witness: C5 amended at the accepted receiving example and the
accepted Player with team "ZZ". -/
theorem position_team_enforcement_witness :
    ((receivingRecord receivingEx1).position ∈ validPositions ∧
      (receivingRecord receivingEx1).team_abbr ∈ validTeams) ∧
    (playerRecord playerExBadTeam).position ∈ validPositions :=
  ⟨position_team_enforcement.1 receivingEx1 (receivingRecord receivingEx1)
      (by rfl),
   position_team_enforcement.2.2.1 playerExBadTeam
      (playerRecord playerExBadTeam) (by rfl)⟩

/-- C6 counterexample: week is declared frozen=False, so assignment after
construction is not rejected and changes the record's week field (from 1
to 9 here). -/
theorem receiving_week_mutable :
    rejectsAssignment receivingFrozen "week" = false ∧
    (setWeek (receivingRecord receivingEx1) 9).map (fun r => r.week) =
      some 9 ∧
    (receivingRecord receivingEx1).week = 1 :=
  ⟨by decide, by decide, by decide⟩

/-- C6 amended: post-construction assignment is rejected exactly for the
fields declared frozen=True: gsis_id in all four models, plus espn_id,
pfr_id, name and college in Player; every other field accepts
assignment. -/
theorem frozen_fields_exactly :
    (∀ p ∈ receivingFrozen,
      (rejectsAssignment receivingFrozen p.1 = true ↔ p.1 = "gsis_id")) ∧
    (∀ p ∈ rushingFrozen,
      (rejectsAssignment rushingFrozen p.1 = true ↔ p.1 = "gsis_id")) ∧
    (∀ p ∈ passingFrozen,
      (rejectsAssignment passingFrozen p.1 = true ↔ p.1 = "gsis_id")) ∧
    (∀ p ∈ playerFrozen,
      (rejectsAssignment playerFrozen p.1 = true ↔
        p.1 ∈ ["gsis_id", "espn_id", "pfr_id", "name", "college"])) := by
  refine ⟨?_, ?_, ?_, ?_⟩ <;> decide

/-- Witness: C6 amended at the frozen gsis_id and the mutable week of
ReceivingMetrics. -/
theorem frozen_fields_exactly_witness :
    (rejectsAssignment receivingFrozen "gsis_id" = true ↔
      "gsis_id" = "gsis_id") ∧
    (rejectsAssignment receivingFrozen "week" = true ↔
      "week" = "gsis_id") :=
  ⟨frozen_fields_exactly.1 ("gsis_id", true) (by decide),
   frozen_fields_exactly.1 ("week", false) (by decide)⟩

/-- C3: player C is dropped, A and B remain with 2024 filled 0 and 900,
the threshold is the 66th linear-interpolation percentile 594 of [0,900]
computed once, every season column is compared strictly against that one
threshold, and only B is retained (A's 400 in 2023 does not exceed 594). -/
theorem snap_count_aggregation_example :
    keptNames c3rows = ["A", "B"] ∧
    filledTable c3rows = [("A", [400, 0]), ("B", [0, 900])] ∧
    snapThreshold c3rows = 594 ∧
    ((filledTable c3rows).filter
      (fun r => r.2.any (fun v => decide (snapThreshold c3rows < v)))) =
      [("B", [0, 900])] ∧
    createSnapCountsByYear c3rows = .ok [("B", [0, 900])] :=
  ⟨by decide, by decide, by decide, by decide, by rfl⟩

/-- C7 counterexample: with no season columns (empty input), the call
fails at the dropna step with the missing-column KeyError for
2024_snaps, not with the EmptyAggregateError (noSnapCols). -/
theorem empty_aggregate_error_counterexample :
    createSnapCountsByYear [] = .error (AggErr.missingColumn "2024_snaps") ∧
    AggErr.missingColumn "2024_snaps" ≠ AggErr.noSnapCols :=
  ⟨by rfl, by decide⟩

/-- C7 amended: when no season columns are present after the pivot the
Aggregator does fail, but with the missing-column KeyError raised by the
hard-coded dropna on 2024_snaps; the dedicated no-snap-columns check
(the spec's EmptyAggregateError) sits after that dropna and is
unreachable: no input ever produces it. -/
theorem no_season_columns_failure_mode :
    (∀ rows : List SnapRow, seasonsOf rows = [] →
      createSnapCountsByYear rows =
        .error (AggErr.missingColumn "2024_snaps")) ∧
    (∀ rows : List SnapRow,
      createSnapCountsByYear rows ≠ .error AggErr.noSnapCols) := by
  constructor
  · intro rows h
    unfold createSnapCountsByYear
    rw [if_pos]
    rw [h]
    decide
  · intro rows hcontra
    unfold createSnapCountsByYear at hcontra
    by_cases hc : (seasonsOf rows).contains 2024 = true
    · rw [if_neg (not_not_intro hc)] at hcontra
      have hne : ¬ ((seasonsOf rows).isEmpty = true) := by
        intro he
        rw [List.isEmpty_iff] at he
        rw [he] at hc
        exact absurd hc (by decide)
      rw [if_neg hne] at hcontra
      exact absurd hcontra (by simp)
    · rw [if_pos hc] at hcontra
      rw [Except.error.injEq] at hcontra
      exact absurd hcontra (by decide)

/-- Witness: C7 amended at the empty input. -/
theorem no_season_columns_failure_mode_witness :
    createSnapCountsByYear ([] : List SnapRow) =
      .error (AggErr.missingColumn "2024_snaps") :=
  no_season_columns_failure_mode.1 [] (by decide)

/-- C8: filtering with a predicate and with its complement partitions the
table: no row appears in both results, together they are a permutation of
the original rows (the union is exactly the original row multiset), each
result is a sublist of the original (row order preserved), and a
predicate matching nothing yields the empty table rather than an error. -/
theorem projection_partition :
    ∀ (t : List Row) (p : Row → Bool),
      (∀ r ∈ filterRows p t, r ∉ filterRows (fun x => !(p x)) t) ∧
      (filterRows p t ++ filterRows (fun x => !(p x)) t).Perm t ∧
      (filterRows p t).Sublist t ∧
      (filterRows (fun x => !(p x)) t).Sublist t ∧
      ((∀ r ∈ t, p r = false) → filterRows p t = []) := by
  intro t p
  refine ⟨?_, ?_, List.filter_sublist t, List.filter_sublist t, ?_⟩
  · intro r hr hr2
    rw [filterRows, List.mem_filter] at hr hr2
    rw [hr.2] at hr2
    exact absurd hr2.2 (by decide)
  · unfold filterRows
    induction t with
    | nil => simp
    | cons a l ih =>
      by_cases hp : p a = true
      · rw [List.filter_cons_of_pos hp,
          List.filter_cons_of_neg (by rw [hp]; decide)]
        exact (List.perm_cons a).mpr ih
      · rw [Bool.not_eq_true] at hp
        rw [List.filter_cons_of_neg (by rw [hp]; decide),
          List.filter_cons_of_pos (by rw [hp]; decide)]
        exact (List.perm_middle.trans ((List.perm_cons a).mpr ih))
  · intro hall
    rw [filterRows, List.filter_eq_nil_iff]
    intro a ha
    rw [hall a ha]
    decide

/-- Witness: C8's empty-result clause at a concrete table with a
predicate matching no row. -/
theorem projection_partition_witness :
    filterRows (positionEq "TE") rowTableEx = [] :=
  (projection_partition rowTableEx (positionEq "TE")).2.2.2.2 (by decide)

end FF
